import Mathlib

/-!
# Verification of the Batch Transcription-Analysis Orchestrator

A shallow embedding, in Lean 4, of the rate limiting, retry, transcript
splitting, model fallback and batch orchestration code of the `bom-ai/ai-server`
repository (files `app/utils/rate_limit_manager.py`,
`app/services/openai_service.py`, `app/services/pipeline_service.py`), together
with theorems settling the specification claims about that code.

Conventions of the embedding:
* Python lists/dicts become Lean `List`s / association lists.
* Wall-clock time (`time.time()` floats) is modelled by `ℚ`.
* Python percentages such as `rpm * 0.9` are modelled by the exact rational
  `(9 : ℚ) / 10 * rpm` (for the integer budgets used by the code the float
  product is exact, so the comparison agrees).
* Fallible Python code (raising) returns `Except String α`, the `String`
  being the exception message.
* `asyncio` suspension points (semaphore waits, sleeps) are modelled by
  explicit state/trace data; a single coroutine's code is straight-line.
-/

namespace AIServer

/-- `sep.join(l)` of Python (`str.join`): concatenation of the elements of `l`
interleaved with `sep`. -/
def joinWith (sep : String) : List String → String
  | [] => ""
  | [x] => x
  | x :: y :: xs => x ++ sep ++ joinWith sep (y :: xs)

/-- Python substring test `pat in s`, via infix-of-character-lists. -/
def strContains (s pat : String) : Bool := decide (pat.toList <:+: s.toList)

/-! ## `app/utils/rate_limit_manager.py` — retry wait strategy -/

/-- `RateLimitManager.is_rate_limit_error`: a message is a rate-limit error iff
it contains one of the four marker substrings. -/
def is_rate_limit_error (error_msg : String) : Bool :=
  strContains error_msg "429" ||
  strContains error_msg "rate_limit_exceeded" ||
  strContains error_msg "tokens per min" ||
  strContains error_msg "requests per min"

/-- `RateLimitManager.get_rate_limit_wait_time`: fixed delays keyed by the
limit type, with `tokens per min` checked before `requests per min`. -/
def get_rate_limit_wait_time (error_msg : String) : Nat :=
  if strContains error_msg "tokens per min" then 60
  else if strContains error_msg "requests per min" then 30
  else 20

/-- The tenacity retry state as consumed by `custom_wait_strategy`:
the 1-based attempt number, and `some msg` when the attempt failed with an
exception whose string is `msg` (`none` models no outcome / a non-failure). -/
structure RetryState where
  attempt_number : Nat
  failedWith : Option String

/-- `RateLimitManager.custom_wait_strategy`: fixed waits for rate-limit
failures, exponential backoff `min 60 (4 * 2^(n-1))` otherwise. -/
def custom_wait_strategy (retry_state : RetryState) : Nat :=
  match retry_state.failedWith with
  | some e =>
      if is_rate_limit_error e then get_rate_limit_wait_time e
      else min 60 (4 * 2 ^ (retry_state.attempt_number - 1))
  | none => min 60 (4 * 2 ^ (retry_state.attempt_number - 1))

/-! ## `app/utils/rate_limit_manager.py` — sentence-based transcript splitter

`split_transcript` splits the stripped text at the regex
`(?<=[.?!])\s+`: every maximal whitespace run immediately preceded by `.`,
`?` or `!` is a separator. `sentSplitAux`/`sentSkipSep` implement exactly that
scan; the accumulator holds the current (reversed) sentence. -/

/-- Does the (reversed) accumulator end a sentence, i.e. is the character just
before the current position `.`, `?` or `!`? -/
def isSentenceEnd : List Char → Bool
  | p :: _ => p = '.' || p = '?' || p = '!'
  | [] => false

mutual

/-- Scanner state: building the current sentence (reversed in `acc`). -/
def sentSplitAux : List Char → List Char → List (List Char)
  | [], acc => [acc.reverse]
  | c :: rest, acc =>
      if c.isWhitespace && isSentenceEnd acc then
        acc.reverse :: sentSkipSep rest
      else
        sentSplitAux rest (c :: acc)

/-- Scanner state: inside the separator whitespace run. -/
def sentSkipSep : List Char → List (List Char)
  | [] => [[]]
  | c :: rest =>
      if c.isWhitespace then sentSkipSep rest
      else sentSplitAux rest [c]

end

/-- Python `str.strip()`: drop leading and trailing whitespace. -/
def pyStrip (s : String) : String :=
  (((s.toList.dropWhile Char.isWhitespace).reverse.dropWhile
      Char.isWhitespace).reverse).asString

/-- `re.split(r'(?<=[.?!])\s+', s)` on an already-stripped string. -/
def splitSentences (s : String) : List String :=
  (sentSplitAux s.toList []).map List.asString

/-- The sentence list `split_transcript` computes for its input. -/
def sentencesOf (full_transcript : String) : List String :=
  splitSentences (pyStrip full_transcript)

/-- `RateLimitManager.split_transcript`: split the transcript into a first half
and a second half that repeats the last `overlap_sentences` sentences of the
first half. Texts of fewer than 20 sentences are returned unsplit. `mid -
overlap` in `ℕ` is Python's `max(0, mid_point - overlap_sentences)`. -/
def split_transcript (full_transcript : String) (overlap_sentences : Nat := 5) :
    String × String :=
  let sentences := sentencesOf full_transcript
  if sentences.length < 20 then (full_transcript, "")
  else
    let mid_point := sentences.length / 2
    let part1 := joinWith " " (sentences.take mid_point)
    let overlap_start_index := mid_point - overlap_sentences
    let part2_with_overlap := joinWith " " (sentences.drop overlap_start_index)
    (part1, part2_with_overlap)

/-! ## `app/services/openai_service.py` — line-based transcript splitter -/

/-- Python `str.split('\n')`: split at every newline, keeping empty pieces
(`"".split('\n') == ['']`). -/
def splitNewlines : List Char → List (List Char)
  | [] => [[]]
  | c :: rest =>
      match splitNewlines rest with
      | [] => [[]]
      | l :: ls => if c = '\n' then [] :: l :: ls else (c :: l) :: ls

/-- The line list `split_transcript_with_overlap` computes:
`full_transcript.strip().split('\n')`. -/
def linesOf (full_transcript : String) : List String :=
  (splitNewlines (pyStrip full_transcript).toList).map List.asString

/-- `split_transcript_with_overlap`: as `split_transcript` but on lines
(`'\n'`-separated) instead of sentences. -/
def split_transcript_with_overlap (full_transcript : String)
    (overlap_lines : Nat := 5) : String × String :=
  let lines := linesOf full_transcript
  if lines.length < 20 then (full_transcript, "")
  else
    let mid_point := lines.length / 2
    let part1 := joinWith "\n" (lines.take mid_point)
    let overlap_start_index := mid_point - overlap_lines
    let part2_with_overlap := joinWith "\n" (lines.drop overlap_start_index)
    (part1, part2_with_overlap)

/-! ## `app/utils/rate_limit_manager.py` — manager state and operations

`RateLimitManager` keeps three per-model dictionaries, all populated from the
same `model_configs` mapping by `_initialize_from_config`: a semaphore (whose
current value `asyncio.Semaphore._value` starts at the configured count), the
list of recent request timestamps, and the token/request budgets. Dictionaries
become association lists, wall-clock timestamps become `ℚ`. -/

/-- One entry of `model_configs`: `config.get("semaphore", 1)`,
`config.get("tpm", 30000)`, `config.get("rpm", 500)`. -/
structure RLMConfig where
  semaphore : Nat := 1
  tpm : Nat := 30000
  rpm : Nat := 500
deriving DecidableEq

/-- The mutable state of a `RateLimitManager`. -/
structure RLMState where
  semaphores : List (String × ℤ)
  last_request_times : List (String × List ℚ)
  token_limits : List (String × (Nat × Nat))
deriving DecidableEq

/-- `__init__` + `_initialize_from_config`: each configured model gets a
semaphore at its configured count, an empty timestamp list, and its
`(tpm, rpm)` budget. Unconfigured models appear in none of the three maps. -/
def rlm_init (model_configs : List (String × RLMConfig)) : RLMState :=
  { semaphores := model_configs.map (fun p => (p.1, (p.2.semaphore : ℤ)))
    last_request_times := model_configs.map (fun p => (p.1, ([] : List ℚ)))
    token_limits := model_configs.map (fun p => (p.1, (p.2.tpm, p.2.rpm))) }

/-- `acquire_slot`: a model missing from `semaphores` returns immediately with
the state untouched (`some st`); a configured model blocks while its semaphore
value is non-positive (`none` models "the caller is suspended, no state
change") and otherwise decrements it. -/
def acquire_slot (st : RLMState) (model_name : String) : Option RLMState :=
  match st.semaphores.lookup model_name with
  | none => some st
  | some v =>
      if 0 < v then
        some { st with semaphores :=
                st.semaphores.map (fun p => if p.1 = model_name then (p.1, v - 1) else p) }
      else none

/-- `release_slot`: increments the semaphore value of a configured model,
no-op otherwise (`asyncio.Semaphore.release` increments unconditionally). -/
def release_slot (st : RLMState) (model_name : String) : RLMState :=
  match st.semaphores.lookup model_name with
  | none => st
  | some v =>
      { st with semaphores :=
          st.semaphores.map (fun p => if p.1 = model_name then (p.1, v + 1) else p) }

/-- `get_available_slots`: the semaphore value for configured models, 0
otherwise. -/
def get_available_slots (st : RLMState) (model_name : String) : ℤ :=
  (st.semaphores.lookup model_name).getD 0

/-- Result of `wait_for_rate_limit`: the single pre-emptive sleep performed
(if any), the state afterwards, and whether the large-request warning fired. -/
structure WaitOutcome where
  slept : Option ℚ
  state : RLMState
  warned : Bool
deriving DecidableEq

/-- `wait_for_rate_limit` invoked at wall-clock time `now`.

* An unconfigured model returns at once: no sleep, no warning, no recorded
  timestamp.
* Otherwise the timestamp list is pruned to the trailing 60-second window; if
  the pruned count is at least 90% of the `rpm` budget (Python `rpm * 0.9`,
  modelled by the exact rational), the code sleeps once for
  `60 - (now - oldest) + 1` seconds when that is positive — and then simply
  proceeds (there is no loop around the check).
* A token estimate above 90% of `tpm` only sets the warning.
* Finally the entry time `now` (the `current_time` captured before the sleep)
  is appended to the pruned list.

`min?` is Python's `min(...)` over the pruned list; its `none` branch is
reachable only when `rpm = 0` (where Python would raise `ValueError`).
The timestamp list for a configured model always exists after
`_initialize_from_config`, so the `getD []` default is never used there.

`pruned_times` is line 133's pruning of the timestamp list to the trailing
60-second window. -/
def pruned_times (st : RLMState) (model_name : String) (now : ℚ) : List ℚ :=
  ((st.last_request_times.lookup model_name).getD []).filter (fun t => now - t < 60)

/-- `wait_for_rate_limit` proper; see the comment on `pruned_times`. -/
def wait_for_rate_limit (st : RLMState) (model_name : String)
    (estimated_tokens : Nat) (now : ℚ) : WaitOutcome :=
  match st.token_limits.lookup model_name with
  | none => ⟨none, st, false⟩
  | some tl =>
      let pruned := pruned_times st model_name now
      let slept : Option ℚ :=
        if (pruned.length : ℚ) ≥ (9 : ℚ) / 10 * (tl.2 : ℚ) then
          match pruned.min? with
          | some oldest =>
              let wait_time := 60 - (now - oldest) + 1
              if 0 < wait_time then some wait_time else none
          | none => none
        else none
      let warned := decide ((estimated_tokens : ℚ) > (9 : ℚ) / 10 * (tl.1 : ℚ))
      let newTimes :=
        st.last_request_times.map
          (fun p => if p.1 = model_name then (p.1, pruned ++ [now]) else p)
      ⟨slept, { st with last_request_times := newTimes }, warned⟩

/-! ## Semaphore slot dynamics (`acquire_slot` / `release_slot` traces)

For the slot-count invariant the per-model semaphore is viewed as a transition
system: the events are the `acquire`s and `release`s performed on one model's
semaphore, in the order the event loop executes them. -/

/-- An event on one model's semaphore. -/
inductive SlotEvent where
  | acquire
  | release
deriving DecidableEq

/-- One step of an `asyncio.Semaphore` as driven by
`acquire_slot`/`release_slot`: `acquire` completes only when the value is
positive (otherwise the caller stays suspended) and decrements; `release`
increments unconditionally. -/
inductive SemStep : ℤ → SlotEvent → ℤ → Prop where
  | acquire (v : ℤ) : 0 < v → SemStep v .acquire (v - 1)
  | release (v : ℤ) : SemStep v .release (v + 1)

/-- `SemTrace cap tr v`: starting from a fresh semaphore with `cap` slots, the
event list `tr` can occur and ends at value `v`. -/
inductive SemTrace (cap : ℤ) : List SlotEvent → ℤ → Prop where
  | nil : SemTrace cap [] cap
  | snoc : ∀ tr v e v', SemTrace cap tr v → SemStep v e v' →
      SemTrace cap (tr ++ [e]) v'

/-- The discipline `acquire_slot_context` enforces: at every point of the
history, no more releases than acquires have been performed on the
semaphore. -/
def Scoped (tr : List SlotEvent) : Prop :=
  ∀ k, (tr.take k).count .release ≤ (tr.take k).count .acquire

/-- The slot events emitted by one `acquire_slot_context` scope: the acquire
on entry, the events of the guarded body, and the `finally` release — present
on every exit path. -/
def acquire_slot_context_events (bodyEvents : List SlotEvent) : List SlotEvent :=
  SlotEvent.acquire :: bodyEvents ++ [SlotEvent.release]

/-- `acquire_slot_context`: runs the guarded body (summarized by its outcome
and the slot events it performs on the same semaphore) between the acquire and
the guaranteed release; the body's outcome — including an exception — is
propagated unchanged after the release. -/
def acquire_slot_context {α : Type} (body : Except String α)
    (bodyEvents : List SlotEvent) : Except String α × List SlotEvent :=
  (body, acquire_slot_context_events bodyEvents)

/-! ## `app/services/openai_service.py` — `OpenAIService`

The OpenAI responses API is an external collaborator; one call either raises
(networking/SDK exception, `error msg`) or returns a response object. A
response's `output` is a list of items; the code only inspects whether the
last item has `type == 'message'` and, if so, the `text` of its first content
element (`none` models a missing/`None` `text` attribute). Successive API
calls made during one `analyze_text` run are numbered, and a `Provider`
assigns each its outcome. -/

/-- One item of `response.output`. -/
inductive OutputItem where
  | message (content : List (Option String))
  | other
deriving DecidableEq

/-- A responses-API response, as far as the code inspects it. -/
structure APIResponse where
  output : List OutputItem
  status : String
deriving DecidableEq

/-- The environment: the outcome of the `k`-th API call of a run. -/
def Provider := Nat → Except String APIResponse

/-- A record of one `self._client.responses.create(...)` call: the model, the
developer (system) prompt, and the user content submitted. -/
structure APICall where
  model : String
  developer : String
  user : String
deriving DecidableEq

/-- The part-1 response validation block of `_make_api_call_with_retry`
(lines 326–349): an empty `output` raises `... returned no output`; when the
last output item is a message the block ends in an **unconditional**
`raise Exception(f"Model {model_name} returned status: {status}")` — the
`status == "completed"` branch above it only binds the local
`result_text_p1` and then falls through to that same `raise`. Only a
non-message last item falls out of the block (leaving `result_text_p1`
unbound, which `.ok ()` models). -/
def validate_part1 (model_name : String) (r : APIResponse) : Except String Unit :=
  if r.output.length > 0 then
    match r.output.getLast? with
    | some (.message _) =>
        .error ("Model " ++ model_name ++ " returned status: " ++ r.status)
    | _ => .ok ()
  else .error ("Model " ++ model_name ++ " returned no output")

/-- The part-2 validation block (lines 362–382): identical to part 1 except
that it has no `else` branch, so an empty `output` also falls through
silently. -/
def validate_part2 (model_name : String) (r : APIResponse) : Except String Unit :=
  if r.output.length > 0 then
    match r.output.getLast? with
    | some (.message _) =>
        .error ("Model " ++ model_name ++ " returned status: " ++ r.status)
    | _ => .ok ()
  else .ok ()

/-- One execution of the body of `_make_api_call_with_retry` (one tenacity
attempt), starting at call index `k`. Returns the outcome, the API calls
issued, and the next call index. The token estimation, the
`wait_for_rate_limit` sleep and the semaphore context around the body
(lines 294–312) only move rate-limiter state and are modelled separately;
they do not alter the outcome or the calls issued.

Control flow of the body: the transcript is split (line 302) and the part-1
call is made; if its validation falls through, the part-2 call is made; if
that also falls through, line 384 builds `combined_analysis_input` from
`result_text_p1`/`result_text_p2` — but no fall-through path has bound them,
so Python raises `NameError` there, before the merge call of line 394 is ever
issued. Every raised exception is re-raised by the `except` block of lines
429–439. -/
def make_api_call_body (prov : Provider) (model_name : String)
    (system_prompt : String × String) (text_content : String) (k : Nat) :
    Except String String × List APICall × Nat :=
  let p := split_transcript_with_overlap text_content
  let call1 : APICall := ⟨model_name, system_prompt.1, p.1⟩
  match prov k with
  | .error e => (.error e, [call1], k + 1)
  | .ok r1 =>
      match validate_part1 model_name r1 with
      | .error e => (.error e, [call1], k + 1)
      | .ok _ =>
          let call2 : APICall := ⟨model_name, system_prompt.1, p.2⟩
          match prov (k + 1) with
          | .error e => (.error e, [call1, call2], k + 2)
          | .ok r2 =>
              match validate_part2 model_name r2 with
              | .error e => (.error e, [call1, call2], k + 2)
              | .ok _ =>
                  (.error "NameError: result_text_p1 is not defined",
                   [call1, call2], k + 2)

/-- The process-wide per-model counters of `self.model_stats`. -/
structure ModelStats where
  attempts : Nat
  successes : Nat
  rate_limited : Nat
deriving DecidableEq

/-- The `model_stats` dictionary. -/
def Stats := List (String × ModelStats)

instance : DecidableEq Stats := by
  unfold Stats
  infer_instance

/-- `if model_name in self.model_stats: self.model_stats[model_name][...] += 1`:
update the entry when present, no-op otherwise. -/
def bumpStat (f : ModelStats → ModelStats) (model_name : String) (st : Stats) :
    Stats :=
  st.map (fun p => if p.1 = model_name then (p.1, f p.2) else p)

/-- `OpenAIService.__init__`: both chain models start with zeroed stats. -/
def initial_model_stats : Stats :=
  [("gpt-5", ⟨0, 0, 0⟩), ("gpt-4o", ⟨0, 0, 0⟩)]

/-- `OpenAIService.__init__`: the ordered fallback chain. -/
def model_fallback_chain : List String := ["gpt-5", "gpt-4o"]

/-- `_make_api_call_with_retry` under tenacity
`stop=stop_after_attempt(3), retry=retry_if_exception_type((Exception,))`:
the body runs up to `fuel` times. Each failed attempt first runs the `except`
block of lines 429–439, bumping `rate_limited` when the error is a rate-limit
error, then re-raises; between attempts tenacity sleeps for
`custom_wait_strategy` seconds (pure delay, no state change). After the last
failure tenacity propagates the error (as a `RetryError` wrapping it; the
wrapper is never inspected downstream, so the message itself is carried). -/
def retry_attempts (prov : Provider) (model_name : String)
    (system_prompt : String × String) (text_content : String) :
    Nat → Nat → Stats → Except String String × List APICall × Nat × Stats
  | 0, k, st => (.error "RetryError", [], k, st)
  | fuel + 1, k, st =>
      match make_api_call_body prov model_name system_prompt text_content k with
      | (.ok r, calls, k2) => (.ok r, calls, k2, st)
      | (.error e, calls, k2) =>
          let st2 :=
            if is_rate_limit_error e then
              bumpStat (fun s => { s with rate_limited := s.rate_limited + 1 })
                model_name st
            else st
          if fuel = 0 then (.error e, calls, k2, st2)
          else
            match retry_attempts prov model_name system_prompt text_content
                fuel k2 st2 with
            | (res, calls2, k3, st3) => (res, calls ++ calls2, k3, st3)

/-- `_make_api_call_with_retry`: three attempts. -/
def make_api_call_with_retry (prov : Provider) (model_name : String)
    (system_prompt : String × String) (text_content : String) (k : Nat)
    (st : Stats) : Except String String × List APICall × Nat × Stats :=
  retry_attempts prov model_name system_prompt text_content 3 k st

/-- Modelled from the spec: `generate_system_prompt_from_docx`
(`app/core/prompts.py` is not among the sources; only this caller is). Per
§4.4 of the spec it builds the provider-specific (analysis, merge) prompt
pair from the requested analysis-item list, selected by `template_type`. Its
output is an opaque pair of strings to everything verified here. -/
def generate_system_prompt_from_docx (file_content : List String)
    (template_type : String) : String × String :=
  ("ANALYSIS PROMPT (" ++ template_type ++ "): " ++ joinWith ", " file_content,
   "MERGE PROMPT (" ++ template_type ++ ")")

/-- `_try_model_analysis` (lines 441–479): bump `attempts`, build the prompt
pair, run the retried call; a truthy (non-empty) result bumps `successes` and
is returned; every exception is caught (lines 476–478) and `None` is
returned — nothing propagates to `analyze_text`. `custom_items or []` maps
Python `None` to the empty list, so the items are a plain list here. -/
def try_model_analysis (prov : Provider) (model_name : String)
    (text_content : String) (custom_items : List String)
    (template_type : String) (k : Nat) (st : Stats) :
    Option String × List APICall × Nat × Stats :=
  let st1 := bumpStat (fun s => { s with attempts := s.attempts + 1 }) model_name st
  let sp := generate_system_prompt_from_docx custom_items template_type
  match make_api_call_with_retry prov model_name sp text_content k st1 with
  | (.ok r, calls, k2, st2) =>
      if r ≠ "" then
        (some r, calls, k2,
         bumpStat (fun s => { s with successes := s.successes + 1 }) model_name st2)
      else (none, calls, k2, st2)
  | (.error _, calls, k2, st2) => (none, calls, k2, st2)

/-- `_generate_fallback_response`, template text before `{error_msg}`. -/
def fallback_head : String :=
  "\n            [자동 분석 제한됨]\n            죄송합니다. 현재 AI 분석 서비스에 일시적인 문제가 발생했습니다.\n\n            상황 정보:\n            - 여러 AI 모델을 시도했으나 모두 실패\n            - 마지막 오류: "

/-- `_generate_fallback_response`, template text between `{error_msg}` and
`{items_text}`. -/
def fallback_mid : String :=
  "\n            - 음성 인식은 정상적으로 완료됨\n\n            권장사항:\n            1. 잠시 후 다시 시도해주세요\n            2. 음성 내용을 수동으로 검토하세요\n            3. 필요시 고객 지원팀에 문의하세요 \n            "

/-- `_generate_fallback_response`, template text after `{items_text}`. -/
def fallback_tail : String :=
  "\n\n            이 문제는 일시적이며, 시스템이 곧 정상화될 예정입니다.\n            "

/-- `_generate_fallback_response` (lines 481–503): the synthetic analysis
text, embedding `error_msg` and the first 10 requested item names. -/
def generate_fallback_response (custom_items : List String) (error_msg : String) :
    String :=
  let items_text :=
    if custom_items.isEmpty then ""
    else
      "\n\n요청된 분석 항목:\n" ++
        joinWith "\n" ((custom_items.take 10).map (fun item => "- " ++ item))
  fallback_head ++ error_msg ++ fallback_mid ++ items_text ++ fallback_tail

/-- The per-model loop of `analyze_text` (lines 244–276). The loop's
`except` branch (which would embed the model's error into the fallback) can
only catch exceptions from `try_model_analysis` — which swallows them all and
returns `None` — so it is dead: a falsy result just moves on to the next
model, and exhausting the chain returns the fallback built from the fixed
message `"All models exhausted"`. -/
def analyze_text_loop (prov : Provider) (text_content : String)
    (custom_items : List String) (template_type : String) :
    List String → Nat → Stats → String × Nat × Stats × List APICall
  | [], k, st =>
      (generate_fallback_response custom_items "All models exhausted", k, st, [])
  | m :: rest, k, st =>
      match try_model_analysis prov m text_content custom_items template_type k st with
      | (some r, calls, k2, st2) => (r, k2, st2, calls)
      | (none, calls, k2, st2) =>
          match analyze_text_loop prov text_content custom_items template_type
              rest k2 st2 with
          | (r, k3, st3, calls2) => (r, k3, st3, calls ++ calls2)

/-- `analyze_text` (lines 228–276): raises `HTTPException(500)` when the API
key is not configured / the client cannot be constructed (`initialized =
false`); otherwise runs the fallback chain and returns the analysis text,
the updated stats, and the API calls made. -/
def analyze_text (initialized : Bool) (prov : Provider) (text_content : String)
    (custom_items : List String) (template_type : String) (st : Stats) :
    Except String (String × Stats × List APICall) :=
  if initialized then
    match analyze_text_loop prov text_content custom_items template_type
        model_fallback_chain 0 st with
    | (r, _, st2, calls) => .ok (r, st2, calls)
  else .error "HTTPException 500: OpenAI API key not configured"

/-- The analysis text of an `analyze_text` outcome, `none` when it raised. -/
def analyzeResult (r : Except String (String × Stats × List APICall)) :
    Option String :=
  match r with
  | .ok (t, _, _) => some t
  | .error _ => none

/-- The final stats of an `analyze_text` outcome. -/
def analyzeStats (r : Except String (String × Stats × List APICall)) : Stats :=
  match r with
  | .ok (_, st, _) => st
  | .error _ => []

/-! ## `app/services/pipeline_service.py` — batch job orchestration

A job record `self.batch_jobs[job_id]` becomes `JobState`; the immutable
fields set at creation (`frame_content`, `mapping`, `gcs_object_names`,
`template_type`, `ai_provider`) are carried as parameters where needed, the
configured filenames being the keys of `gcs_object_names` (distinct, being
dict keys). The job store `self.batch_jobs` becomes an association list. -/

/-- One entry of a job's `results` dictionary. -/
structure FileResult where
  group : String
  transcribed_text : String
  analysis : String
deriving DecidableEq

/-- The mutable part of one job record. -/
structure JobState where
  status : String
  message : String
  total_files : Nat
  processed_files : Nat
  results : List (String × FileResult)
  errors : List (String × String)
deriving DecidableEq

/-- The job created by `request_batch_analysis_job` (lines 124–137). -/
def new_job (total : Nat) : JobState :=
  { status := "pending_upload"
    message := "파일 업로드를 기다리는 중입니다."
    total_files := total
    processed_files := 0
    results := []
    errors := [] }

/-- The outcome of one iteration's inner `try` block (lines 289–334) for one
file — signed-URL generation, STT submission and polling, the inter-file
sleep, and the analysis call — summarized per filename: `.ok (transcript,
analysis)` when the body reaches the `results` write, `.error msg` when any
of those steps raised (the caught exception's message). -/
def FileOracle := String → Except String (String × String)

/-- `oracle f` succeeded. -/
def oracleOk (oracle : FileOracle) (f : String) : Bool :=
  match oracle f with
  | .ok _ => true
  | .error _ => false

/-- One iteration of the per-file loop of `_batch_analysis_task`
(lines 283–341) for filename `filename` at enumeration index `i`: record the
outcome under `results` or `errors` (each filename is a dict key, written at
most once per job, so recording is an append) and set
`processed_files = i + 1`. -/
def process_file (mapping : List (String × String)) (oracle : FileOracle)
    (job : JobState) (filename : String) (i : Nat) : JobState :=
  let group_name := (mapping.lookup filename).getD "Unknown Group"
  let job1 :=
    match oracle filename with
    | .ok (tt, ar) =>
        { job with results :=
            job.results ++ [(filename, (⟨group_name, tt, ar⟩ : FileResult))] }
    | .error e => { job with errors := job.errors ++ [(filename, e)] }
  { job1 with processed_files := i + 1 }

/-- The `for i, filename in enumerate(filenames_to_process)` loop. -/
def batch_loop (mapping : List (String × String)) (oracle : FileOracle) :
    JobState → List String → Nat → JobState
  | job, [], _ => job
  | job, f :: fs, i =>
      batch_loop mapping oracle (process_file mapping oracle job f i) fs (i + 1)

/-- `_batch_analysis_task` (lines 261–349): the outer `try` first processes
the frame document (`extract_table_headers_with_subitems` +
`format_items_for_prompt`, an external collaborator whose outcome `frame`
summarizes); a failure there flips the job to `failed`; otherwise the
per-file loop runs to completion and the job ends `completed` no matter how
many files errored. -/
def batch_analysis_task (mapping : List (String × String)) (oracle : FileOracle)
    (frame : Except String Unit) (filenames : List String) (job : JobState) :
    JobState :=
  match frame with
  | .error e =>
      { job with status := "failed", message := "배치 분석 중 오류 발생: " ++ e }
  | .ok _ =>
      let done := batch_loop mapping oracle job filenames 0
      { done with status := "completed", message := "배치 분석 작업이 완료되었습니다." }

/-- The in-process job store `self.batch_jobs`. -/
def JobStore := List (String × JobState)

/-- Overwrite the entry of `job_id` (Python dict assignment on an existing
key). -/
def update_job (store : JobStore) (job_id : String) (j : JobState) : JobStore :=
  store.map (fun p => if p.1 = job_id then (p.1, j) else p)

/-- `start_batch_analysis` (lines 144–161): unknown job id or a status other
than `pending_upload` raises a `ValueError` and mutates nothing; otherwise
the job moves to `processing`, `asyncio.create_task` schedules
`_batch_analysis_task` for `job_id` as a background task, and the coroutine
returns at once — the returned store contains no per-file work. The returned
`String` is the job id whose task was scheduled. -/
def start_batch_analysis (store : JobStore) (job_id : String) :
    Except String (JobStore × String) :=
  match store.lookup job_id with
  | none => .error "해당 작업을 찾을 수 없습니다."
  | some job_info =>
      if job_info.status ≠ "pending_upload" then
        .error "이미 처리 중이거나 완료된 작업입니다."
      else
        .ok (update_job store job_id
               { job_info with
                  status := "processing", message := "배치 분석 작업 진행 중..." },
             job_id)

/-- Rank of a job status in the lifecycle order; the two terminal statuses
share the top rank. -/
def statusRank (s : String) : Nat :=
  if s = "pending_upload" then 0
  else if s = "processing" then 1
  else 2

/-- The two status mutations a stored job undergoes in `pipeline_service`
after creation: `start_batch_analysis` succeeding on it, and the
`_batch_analysis_task` launched by that `start` finishing (the task runs
on a job `start` has just set to `processing`; `start` is one-shot by its
status guard, so no second task exists for the job). -/
inductive JobStatusStep : JobState → JobState → Prop where
  | start : ∀ (store : JobStore) (job_id : String) (store' : JobStore)
      (job job' : JobState),
      store.lookup job_id = some job →
      start_batch_analysis store job_id = .ok (store', job_id) →
      store'.lookup job_id = some job' →
      JobStatusStep job job'
  | finish : ∀ (mapping : List (String × String)) (oracle : FileOracle)
      (frame : Except String Unit) (filenames : List String) (job : JobState),
      job.status = "processing" →
      JobStatusStep job (batch_analysis_task mapping oracle frame filenames job)

/-! ## Concrete instances used by individual claims -/

/-- A provider for which chain model 1 (`gpt-5`, calls 0–2) always fails with
a transient connection error while chain model 2 (`gpt-4o`, calls 3–5) always
succeeds: every later call returns a `completed` message with non-empty
text. -/
def c1Provider : Provider := fun k =>
  if k < 3 then .error "Connection error"
  else .ok ⟨[.message [some "FINAL ANALYSIS"]], "completed"⟩

/-- A per-file outcome where the second file's transcription times out and the
others succeed. -/
def c2Oracle : FileOracle := fun f =>
  if f = "f2" then .error "STT timeout" else .ok ("전사 결과", "분석 결과")

/-- A transcript of exactly 20 sentences (the splitting threshold). -/
def c7Text : String :=
  "a0. a1. a2. a3. a4. a5. a6. a7. a8. a9. b0. b1. b2. b3. b4. b5. b6. b7. b8. b9."

/-- A provider whose responses carry a non-message last output item, so the
part-1 validation block falls through and the part-2 sub-call is issued. -/
def c8Provider : Provider := fun _ => .ok ⟨[.other], "incomplete"⟩

/-- A rate-limiter state for `rpm = 2` (90% threshold 1.8) with two recent
requests, at `t = 0` and `t = 30`. -/
def c9State : RLMState :=
  { semaphores := [("gpt-4o", 1)]
    last_request_times := [("gpt-4o", [0, 30])]
    token_limits := [("gpt-4o", (30000, 2))] }

/-! # Theorems -/

/-! ## Shared helper lemmas -/

theorem toList_append (a b : String) : (a ++ b).toList = a.toList ++ b.toList :=
  rfl

theorem strContains_of_chars (s pat : String) (h : pat.toList <:+: s.toList) :
    strContains s pat = true := by
  simp only [strContains, decide_eq_true_eq]
  exact h

/-- Every element of `l` occurs verbatim inside `sep.join(l)`. -/
theorem mem_joinWith_chars (sep : String) (l : List String) (x : String)
    (h : x ∈ l) : x.toList <:+: (joinWith sep l).toList := by
  induction l with
  | nil => cases h
  | cons a as ih =>
      cases as with
      | nil =>
          rw [List.mem_singleton] at h
          subst h
          exact List.infix_rfl
      | cons b bs =>
          rcases List.mem_cons.mp h with rfl | h2
          · refine ⟨[], sep.toList ++ (joinWith sep (b :: bs)).toList, ?_⟩
            simp [joinWith, toList_append]
          · refine (ih h2).trans ⟨a.toList ++ sep.toList, [], ?_⟩
            simp [joinWith, toList_append]

/-- `List.lookup` on the three maps `_initialize_from_config` builds. -/
theorem rlm_init_lookup (model_configs : List (String × RLMConfig))
    (m : String) :
    (rlm_init model_configs).semaphores.lookup m =
      (model_configs.lookup m).map (fun c => (c.semaphore : ℤ)) ∧
    (rlm_init model_configs).last_request_times.lookup m =
      (model_configs.lookup m).map (fun _ => ([] : List ℚ)) ∧
    (rlm_init model_configs).token_limits.lookup m =
      (model_configs.lookup m).map (fun c => (c.tpm, c.rpm)) := by
  induction model_configs with
  | nil => exact ⟨rfl, rfl, rfl⟩
  | cons a as ih =>
      obtain ⟨ih1, ih2, ih3⟩ := ih
      refine ⟨?_, ?_, ?_⟩ <;>
        cases hbe : (m == a.1) <;>
          simp [rlm_init, List.lookup, hbe, ih1, ih2, ih3] <;>
          simp [rlm_init] at ih1 ih2 ih3 <;>
          assumption

/-- `List.lookup` after overwriting every entry of one key. -/
theorem lookup_map_overwrite {β : Type} (l : List (String × β)) (m : String)
    (v w : β) (h : l.lookup m = some w) :
    (l.map (fun p => if p.1 = m then (p.1, v) else p)).lookup m = some v := by
  induction l with
  | nil => simp [List.lookup] at h
  | cons a as ih =>
      rw [List.lookup] at h
      simp only [List.map]
      by_cases hp : a.1 = m
      · rw [if_pos hp, List.lookup]
        have hb : (m == a.1) = true := by simp [hp]
        simp [hb]
      · rw [if_neg hp, List.lookup]
        have hb : (m == a.1) = false := by
          simp only [beq_eq_false_iff_ne, ne_eq]
          exact fun hh => hp hh.symm
        rw [hb] at h
        have h2 : List.lookup m as = some w := h
        rw [hb]
        exact ih h2

/-! ## C6 — retry wait strategy -/

/-- C6 (counterexample): the claim says a rate-limit failure whose message
contains "requests per min" gets a 30-second delay; but a message containing
both markers gets 60 seconds, because the code checks "tokens per min"
first. -/
theorem custom_wait_strategy_requests_message_not_30 :
    strContains "429: tokens per min and requests per min exceeded"
        "requests per min" = true ∧
    is_rate_limit_error "429: tokens per min and requests per min exceeded"
        = true ∧
    custom_wait_strategy
        ⟨1, some "429: tokens per min and requests per min exceeded"⟩ = 60 ∧
    custom_wait_strategy
        ⟨1, some "429: tokens per min and requests per min exceeded"⟩ ≠ 30 := by
  decide

/-- C6 (amended): the wait strategy returns, for a failed attempt classified
as a rate-limit error: 60 s when the message contains "tokens per min"; 30 s
when it contains "requests per min" but not "tokens per min"; 20 s for any
other rate-limit/429 error — in every case independent of the attempt
number — and for every non-rate-limit failure the exponential backoff
`min 60 (4·2^(n−1))`. -/
theorem custom_wait_strategy_characterization (n : Nat) (e : String) :
    (is_rate_limit_error e = true → strContains e "tokens per min" = true →
        custom_wait_strategy ⟨n, some e⟩ = 60) ∧
    (is_rate_limit_error e = true → strContains e "tokens per min" = false →
        strContains e "requests per min" = true →
        custom_wait_strategy ⟨n, some e⟩ = 30) ∧
    (is_rate_limit_error e = true → strContains e "tokens per min" = false →
        strContains e "requests per min" = false →
        custom_wait_strategy ⟨n, some e⟩ = 20) ∧
    (is_rate_limit_error e = false →
        custom_wait_strategy ⟨n, some e⟩ = min 60 (4 * 2 ^ (n - 1))) ∧
    custom_wait_strategy ⟨n, none⟩ = min 60 (4 * 2 ^ (n - 1)) := by
  refine ⟨fun h1 h2 => ?_, fun h1 h2 h3 => ?_, fun h1 h2 h3 => ?_,
      fun h1 => ?_, ?_⟩ <;>
    simp [custom_wait_strategy, get_rate_limit_wait_time, *]

/-- C6 witness: a "requests per min" (only) rate-limit failure at attempt 7
still waits 30 s. -/
theorem custom_wait_strategy_characterization_witness :
    custom_wait_strategy ⟨7, some "Error 429: requests per min exceeded"⟩ = 30 :=
  (custom_wait_strategy_characterization 7
      "Error 429: requests per min exceeded").2.1 (by decide) (by decide) (by decide)

/-! ## C7 — sentence-based transcript splitting -/

/-- C7 (counterexample): for a 20-sentence transcript with the default
overlap 5, partA has the first 10 sentences and partB begins at sentence
index 5 — `len(partA sentences) − overlap` — not at `10 + 5 = 15` as the
claim's equation would have it. -/
theorem split_transcript_position_counterexample :
    (sentencesOf c7Text).length = 20 ∧
    (split_transcript c7Text 5).1 =
      joinWith " " ((sentencesOf c7Text).take 10) ∧
    (split_transcript c7Text 5).2 =
      joinWith " " ((sentencesOf c7Text).drop 5) ∧
    (split_transcript c7Text 5).2 ≠
      joinWith " " ((sentencesOf c7Text).drop (10 + 5)) := by
  decide

/-- C7 (amended): at or above the 20-sentence threshold, partA is the first
`⌊n/2⌋` sentences joined; partB begins at sentence index `⌊n/2⌋ − overlap`
(the overlap window is the last `overlap` sentences of partA prepended to
partB, so `start + overlap = len(partA sentences)` whenever
`overlap ≤ ⌊n/2⌋`); and partA's non-overlapping sentence prefix concatenated
with partB's sentences is exactly the sentence list of the input. -/
theorem split_transcript_spec (t : String) (overlap : Nat)
    (h : 20 ≤ (sentencesOf t).length)
    (hk : overlap ≤ (sentencesOf t).length / 2) :
    (split_transcript t overlap).1 =
      joinWith " " ((sentencesOf t).take ((sentencesOf t).length / 2)) ∧
    (split_transcript t overlap).2 =
      joinWith " "
        ((sentencesOf t).drop ((sentencesOf t).length / 2 - overlap)) ∧
    ((sentencesOf t).length / 2 - overlap) + overlap =
      (sentencesOf t).length / 2 ∧
    (sentencesOf t).take ((sentencesOf t).length / 2 - overlap) ++
        (sentencesOf t).drop ((sentencesOf t).length / 2 - overlap) =
      sentencesOf t := by
  have hlt : ¬ (sentencesOf t).length < 20 := by omega
  refine ⟨?_, ?_, by omega, List.take_append_drop _ _⟩ <;>
    simp [split_transcript, hlt]

/-- C7 witness: the amended position equation at the 20-sentence example. -/
theorem split_transcript_spec_witness :
    ((sentencesOf c7Text).length / 2 - 5) + 5 = (sentencesOf c7Text).length / 2 :=
  (split_transcript_spec c7Text 5 (by decide) (by decide)).2.2.1

/-! ## C10 — unconfigured models bypass the rate limiter -/

/-- A model absent from `model_configs` is absent from all three maps built
by `_initialize_from_config`. -/
theorem rlm_init_lookup_none (model_configs : List (String × RLMConfig))
    (m : String) (h : model_configs.lookup m = none) :
    (rlm_init model_configs).semaphores.lookup m = none ∧
    (rlm_init model_configs).last_request_times.lookup m = none ∧
    (rlm_init model_configs).token_limits.lookup m = none := by
  obtain ⟨h1, h2, h3⟩ := rlm_init_lookup model_configs m
  rw [h1, h2, h3, h]
  exact ⟨rfl, rfl, rfl⟩

/-- C10: for a model name not in the configured set, the rate limiter is
inert — `acquire_slot` returns at once without touching any state,
`release_slot` is a no-op, `get_available_slots` is 0, and
`wait_for_rate_limit` returns immediately: no sleep, no warning, no recorded
timestamp. -/
theorem unconfigured_model_inert (model_configs : List (String × RLMConfig))
    (m : String) (h : model_configs.lookup m = none) (est : Nat) (now : ℚ) :
    acquire_slot (rlm_init model_configs) m = some (rlm_init model_configs) ∧
    release_slot (rlm_init model_configs) m = rlm_init model_configs ∧
    get_available_slots (rlm_init model_configs) m = 0 ∧
    wait_for_rate_limit (rlm_init model_configs) m est now =
      ⟨none, rlm_init model_configs, false⟩ := by
  obtain ⟨h1, _h2, h3⟩ := rlm_init_lookup_none model_configs m h
  refine ⟨?_, ?_, ?_, ?_⟩ <;>
    simp [acquire_slot, release_slot, get_available_slots,
      wait_for_rate_limit, h1, h3]

/-- C10 witness: with only `gpt-5` and `gpt-4o` configured (the OpenAI
default config), the model name `o3` bypasses the limiter entirely. -/
theorem unconfigured_model_inert_witness :
    wait_for_rate_limit
        (rlm_init [("gpt-5", ⟨1, 30000, 500⟩), ("gpt-4o", ⟨1, 30000, 500⟩)])
        "o3" 12345 99 =
      ⟨none,
       rlm_init [("gpt-5", ⟨1, 30000, 500⟩), ("gpt-4o", ⟨1, 30000, 500⟩)],
       false⟩ :=
  (unconfigured_model_inert
      [("gpt-5", ⟨1, 30000, 500⟩), ("gpt-4o", ⟨1, 30000, 500⟩)] "o3"
      (by decide) 12345 99).2.2.2

/-! ## C4 — slot-count invariant and scope-guaranteed release -/

/-- `SemTrace` accounting: the semaphore value is the cap minus acquires plus
releases. -/
theorem semTrace_count (cap : ℤ) (tr : List SlotEvent) (v : ℤ)
    (h : SemTrace cap tr v) :
    v = cap - (tr.count .acquire : ℤ) + (tr.count .release : ℤ) := by
  induction h with
  | nil => simp
  | snoc tr v e v' htr hstep ih =>
      cases hstep with
      | acquire hpos =>
          simp only [List.count_append, List.count_cons, List.count_nil,
            beq_self_eq_true, reduceCtorEq, beq_iff_eq]
          push_cast
          omega
      | release =>
          simp only [List.count_append, List.count_cons, List.count_nil,
            beq_self_eq_true, reduceCtorEq, beq_iff_eq]
          push_cast
          omega

/-- `SemTrace` values never go negative: `acquire` only fires on a positive
value. -/
theorem semTrace_nonneg (cap : ℤ) (tr : List SlotEvent) (v : ℤ)
    (hcap : 0 ≤ cap) (h : SemTrace cap tr v) : 0 ≤ v := by
  induction h with
  | nil => exact hcap
  | snoc tr v e v' htr hstep ih =>
      cases hstep with
      | acquire hpos => omega
      | release => omega

/-- C4: (1) each configured model's semaphore starts at its configured cap;
(2) along any event history obeying the scoped acquire-before-release
discipline, the slot value stays within `[0, cap]`; (3) one
`acquire_slot_context` scope emits exactly one acquire before and one release
after the guarded body's events, propagating the body's outcome — so the
release happens even when the body raises; (4) a scope around a scoped body
is again scoped, so the discipline is preserved by nesting. -/
theorem rate_limiter_slot_invariant :
    (∀ (model_configs : List (String × RLMConfig)) (m : String) (c : RLMConfig),
        model_configs.lookup m = some c →
        (rlm_init model_configs).semaphores.lookup m = some (c.semaphore : ℤ)) ∧
    (∀ (cap v : ℤ) (tr : List SlotEvent), 0 ≤ cap → SemTrace cap tr v →
        Scoped tr → 0 ≤ v ∧ v ≤ cap) ∧
    (∀ (α : Type) (body : Except String α) (ev : List SlotEvent),
        acquire_slot_context body ev =
          (body, SlotEvent.acquire :: (ev ++ [SlotEvent.release])) ∧
        (acquire_slot_context body ev).2.count .release = ev.count .release + 1 ∧
        (acquire_slot_context body ev).2.count .acquire =
          ev.count .acquire + 1) ∧
    (∀ ev : List SlotEvent, Scoped ev →
        Scoped (acquire_slot_context_events ev)) := by
  refine ⟨?_, ?_, ?_, ?_⟩
  · intro model_configs m c h
    rw [(rlm_init_lookup model_configs m).1, h]
    rfl
  · intro cap v tr hcap htr hsc
    have hval := semTrace_count cap tr v htr
    have hnn := semTrace_nonneg cap tr v hcap htr
    have hbal := hsc tr.length
    rw [List.take_length] at hbal
    refine ⟨hnn, ?_⟩
    omega
  · intro α body ev
    refine ⟨rfl, ?_, ?_⟩ <;>
      simp [acquire_slot_context, acquire_slot_context_events,
        List.count_append, List.count_cons]
  · intro ev hsc k
    unfold acquire_slot_context_events
    cases k with
    | zero => exact Nat.le.refl
    | succ j =>
        simp only [List.cons_append, List.take_succ_cons, List.count_cons]
        by_cases hj : j ≤ ev.length
        · rw [List.take_append_of_le_length hj]
          have := hsc j
          simp only [beq_iff_eq, reduceCtorEq, beq_self_eq_true, reduceIte]
          omega
        · rw [List.take_of_length_le (by simp; omega)]
          have := hsc ev.length
          rw [List.take_length] at this
          simp only [List.count_append, List.count_cons, List.count_nil,
            beq_iff_eq, reduceCtorEq, beq_self_eq_true, reduceIte]
          omega

/-- C4 witness: a single scoped acquire on a 1-slot semaphore keeps the value
within `[0, 1]`. -/
theorem rate_limiter_slot_invariant_witness :
    0 ≤ (1 - 1 : ℤ) ∧ (1 - 1 : ℤ) ≤ 1 :=
  rate_limiter_slot_invariant.2.1 1 (1 - 1) ([] ++ [SlotEvent.acquire])
    (by decide)
    (SemTrace.snoc [] 1 SlotEvent.acquire (1 - 1) SemTrace.nil
      (SemStep.acquire 1 (by decide)))
    (by
      intro k
      cases k with
      | zero => simp
      | succ j => simp)

/-! ## Helper lemmas about the OpenAI call path -/

/-- No execution of the `_make_api_call_with_retry` body returns normally:
part-1 validation raises on a message (or on empty output), and the only
fall-through paths leave `result_text_p1` unbound, so building
`combined_analysis_input` raises `NameError`. -/
theorem make_api_call_body_not_ok (prov : Provider) (m : String)
    (sp : String × String) (t : String) (k : Nat) (r : String) :
    (make_api_call_body prov m sp t k).1 ≠ Except.ok r := by
  unfold make_api_call_body
  dsimp only
  repeat' split <;> try simp

/-- Hence the tenacity wrapper never returns normally either. -/
theorem retry_attempts_not_ok (prov : Provider) (m : String)
    (sp : String × String) (t : String) (fuel k : Nat) (st : Stats)
    (r : String) :
    (retry_attempts prov m sp t fuel k st).1 ≠ Except.ok r := by
  induction fuel generalizing k st with
  | zero => simp [retry_attempts]
  | succ n ih =>
      unfold retry_attempts
      split
      next r2 calls k2 heq =>
        exact absurd (congrArg (fun x => x.1) heq)
          (make_api_call_body_not_ok prov m sp t k r2)
      next e calls k2 heq =>
        dsimp only
        repeat' split <;> first
          | simp
          | exact ih k2 _

/-- `_try_model_analysis` always returns `None`. -/
theorem try_model_analysis_none (prov : Provider) (m t tt : String)
    (items : List String) (k : Nat) (st : Stats) :
    (try_model_analysis prov m t items tt k st).1 = none := by
  unfold try_model_analysis
  dsimp only
  split
  next r calls k2 st2 heq =>
    exact absurd (congrArg (fun x => x.1) heq)
      (retry_attempts_not_ok prov m _ t 3 k _ r)
  next calls k2 st2 heq => rfl

/-- The fallback chain loop always falls off the end and synthesizes the
fallback with the fixed message `"All models exhausted"`. -/
theorem analyze_text_loop_fallback (prov : Provider) (t tt : String)
    (items : List String) (chain : List String) (k : Nat) (st : Stats) :
    (analyze_text_loop prov t items tt chain k st).1 =
      generate_fallback_response items "All models exhausted" := by
  induction chain generalizing k st with
  | nil => rfl
  | cons m rest ih =>
      unfold analyze_text_loop
      split
      next r calls k2 st2 heq =>
        have h := try_model_analysis_none prov m t tt items k st
        rw [heq] at h
        simp at h
      next calls k2 st2 heq =>
        split
        next r k3 st3 calls2 heq2 =>
          have h3 := ih k2 st2
          rw [heq2] at h3
          simpa using h3

set_option maxRecDepth 8192 in
/-- The fallback text is never the empty string. -/
theorem generate_fallback_response_ne_empty (items : List String) (e : String) :
    generate_fallback_response items e ≠ "" := by
  intro hc
  have hlen := congrArg String.length hc
  unfold generate_fallback_response at hlen
  rw [String.length_append, String.length_append, String.length_append,
    String.length_append] at hlen
  have hh : 0 < fallback_head.length := by decide
  have hz : String.length "" = 0 := rfl
  omega

/-- Each of the first ten requested item names occurs verbatim in the
fallback text. -/
theorem fallback_contains_item (items : List String) (e item : String)
    (h : item ∈ items.take 10) :
    strContains (generate_fallback_response items e) item = true := by
  apply strContains_of_chars
  have hne : items.isEmpty = false := by
    cases items with
    | nil => simp at h
    | cons a as => rfl
  have h1 : item.toList <:+:
      (joinWith "\n" ((items.take 10).map (fun i => "- " ++ i))).toList := by
    have hm : ("- " ++ item) ∈ (items.take 10).map (fun i => "- " ++ i) :=
      List.mem_map_of_mem _ h
    refine List.IsInfix.trans ?_ (mem_joinWith_chars "\n" _ _ hm)
    exact ⟨("- ").toList, [], by simp [toList_append]⟩
  unfold generate_fallback_response
  rw [hne]
  refine h1.trans ?_
  refine ⟨(fallback_head ++ e ++ fallback_mid ++ "\n\n요청된 분석 항목:\n").toList,
    fallback_tail.toList, ?_⟩
  simp only [Bool.false_eq_true, if_false, toList_append]
  simp [List.append_assoc]

/-! ## C8 — short transcripts and the missing single-pass path -/

/-- C8 (counterexample): a 3-line transcript is below the threshold and
`split` returns `(text, "")` — yet the analysis is not single-pass: the code
unconditionally issues a part-2 sub-call (here with empty user content)
whenever the part-1 response falls through validation. -/
theorem short_transcript_not_single_pass :
    split_transcript_with_overlap "라인1\n라인2\n라인3" 5 =
      ("라인1\n라인2\n라인3", "") ∧
    (make_api_call_body c8Provider "gpt-5" ("분석 프롬프트", "병합 프롬프트")
        "라인1\n라인2\n라인3" 0).2.1 =
      [⟨"gpt-5", "분석 프롬프트", "라인1\n라인2\n라인3"⟩,
       ⟨"gpt-5", "분석 프롬프트", ""⟩] ∧
    (make_api_call_body c8Provider "gpt-5" ("분석 프롬프트", "병합 프롬프트")
        "라인1\n라인2\n라인3" 0).2.1.length ≠ 1 := by
  decide

/-- C8 (amended): below the 20-line threshold `split` returns `(text, "")`,
and no merge sub-call is ever issued — every API call of the sequence uses
the analysis prompt `sp.1` (never the merge prompt) and there are at most the
two analysis sub-calls. The sequence is not gated by the split result: it is
never the single-pass call the claim describes (see the counterexample). -/
theorem split_short_no_merge (t ap mp m : String) (prov : Provider) (k : Nat)
    (h : (linesOf t).length < 20) :
    split_transcript_with_overlap t 5 = (t, "") ∧
    (make_api_call_body prov m (ap, mp) t k).2.1.length ≤ 2 ∧
    (∀ c, c ∈ (make_api_call_body prov m (ap, mp) t k).2.1 →
        c.developer = ap) := by
  refine ⟨by simp [split_transcript_with_overlap, h], ?_, ?_⟩ <;>
  · unfold make_api_call_body
    dsimp only
    repeat' split <;> try simp

/-- C8 witness: a one-line transcript stays unsplit and its call sequence
never uses the merge prompt. -/
theorem split_short_no_merge_witness :
    split_transcript_with_overlap "한 줄짜리 녹취록" 5 = ("한 줄짜리 녹취록", "") :=
  (split_short_no_merge "한 줄짜리 녹취록" "분석" "병합" "gpt-5"
      (fun _ => Except.error "x") 0 (by decide)).1

/-! ## C1 — the fallback chain never accepts a successful model -/

set_option maxRecDepth 16384 in
/-- C1 (code bug evaluation): with model 1 always failing transiently and
model 2 always succeeding at the provider level, `analyze_text` does NOT
return model 2's result: the part-1 validation block raises
`returned status: completed` even on success, so model 2's sub-call sequence
fails, `successes` of `gpt-4o` stays 0 (its `attempts` is 1, as is
`gpt-5`'s, whose `successes` is also correctly not incremented), and the
fallback text is returned instead. -/
theorem analyze_text_drops_successful_model :
    analyzeResult (analyze_text true c1Provider "녹취록 텍스트" ["항목1"]
        "refined" initial_model_stats) =
      some (generate_fallback_response ["항목1"] "All models exhausted") ∧
    analyzeResult (analyze_text true c1Provider "녹취록 텍스트" ["항목1"]
        "refined" initial_model_stats) ≠ some "FINAL ANALYSIS" ∧
    analyzeStats (analyze_text true c1Provider "녹취록 텍스트" ["항목1"]
        "refined" initial_model_stats) =
      [("gpt-5", ⟨1, 0, 0⟩), ("gpt-4o", ⟨1, 0, 0⟩)] := by
  decide

/-! ## C3 — analyze_text's total-failure fallback -/

set_option maxRecDepth 16384 in
/-- C3 (counterexample): when every call fails with `boom`, the returned
fallback embeds the constant `All models exhausted` — not the last error
message `boom`, which `_try_model_analysis` swallowed. -/
theorem analyze_text_fallback_drops_last_error :
    analyzeResult (analyze_text true (fun _ => Except.error "boom") "텍스트"
        ["항목A"] "refined" initial_model_stats) =
      some (generate_fallback_response ["항목A"] "All models exhausted") ∧
    strContains (generate_fallback_response ["항목A"] "All models exhausted")
      "boom" = false := by
  decide

/-- C3 (amended): on an initialized service `analyze_text` never raises —
indeed, whatever the provider does, it returns the fallback text built from
the fixed message `"All models exhausted"` (the per-model last error is
swallowed inside `_try_model_analysis` and never embedded), and that text is
non-empty and contains each of the first 10 requested item names verbatim. -/
theorem analyze_text_never_raises_embeds_items (prov : Provider)
    (text tt : String) (items : List String) (st : Stats) :
    (∀ e, analyze_text true prov text items tt st ≠ .error e) ∧
    analyzeResult (analyze_text true prov text items tt st) =
      some (generate_fallback_response items "All models exhausted") ∧
    generate_fallback_response items "All models exhausted" ≠ "" ∧
    (∀ item, item ∈ items.take 10 →
        strContains (generate_fallback_response items "All models exhausted")
          item = true) := by
  refine ⟨?_, ?_, generate_fallback_response_ne_empty items _,
    fun item h => fallback_contains_item items _ item h⟩
  · intro e
    simp [analyze_text]
  · have h := analyze_text_loop_fallback prov text tt items
      model_fallback_chain 0 st
    simp [analyze_text, analyzeResult, h]

/-- C3 witness: the fallback for one concrete item list contains that item. -/
theorem analyze_text_never_raises_embeds_items_witness :
    strContains
      (generate_fallback_response ["개별 분석 항목"] "All models exhausted")
      "개별 분석 항목" = true :=
  (analyze_text_never_raises_embeds_items (fun _ => Except.error "x") "텍스트"
      "refined" ["개별 분석 항목"] initial_model_stats).2.2.2
    "개별 분석 항목" (by decide)

/-! ## C2 — the results/errors partition of the batch loop -/

/-- The result keys after the loop are exactly the processed filenames whose
oracle succeeded, in order. -/
theorem batch_loop_results (mapping : List (String × String))
    (oracle : FileOracle) :
    ∀ (fs : List String) (job : JobState) (i : Nat),
    (batch_loop mapping oracle job fs i).results.map Prod.fst =
      job.results.map Prod.fst ++ fs.filter (fun f => oracleOk oracle f)
  | [], job, i => by simp [batch_loop]
  | f :: fs, job, i => by
      rw [batch_loop, batch_loop_results mapping oracle fs _ (i + 1)]
      cases hf : oracle f with
      | ok v => simp [process_file, hf, oracleOk, List.filter_cons]
      | error e => simp [process_file, hf, oracleOk, List.filter_cons]

/-- The error keys after the loop are exactly the processed filenames whose
oracle failed, in order. -/
theorem batch_loop_errors (mapping : List (String × String))
    (oracle : FileOracle) :
    ∀ (fs : List String) (job : JobState) (i : Nat),
    (batch_loop mapping oracle job fs i).errors.map Prod.fst =
      job.errors.map Prod.fst ++ fs.filter (fun f => !(oracleOk oracle f))
  | [], job, i => by simp [batch_loop]
  | f :: fs, job, i => by
      rw [batch_loop, batch_loop_errors mapping oracle fs _ (i + 1)]
      cases hf : oracle f with
      | ok v => simp [process_file, hf, oracleOk, List.filter_cons]
      | error e => simp [process_file, hf, oracleOk, List.filter_cons]

/-- `processed_files` after the loop: untouched on an empty list, otherwise
`i + fs.length` (each iteration sets it to its enumeration index + 1). -/
theorem batch_loop_processed (mapping : List (String × String))
    (oracle : FileOracle) :
    ∀ (fs : List String) (job : JobState) (i : Nat),
    (batch_loop mapping oracle job fs i).processed_files =
      if fs.isEmpty then job.processed_files else i + fs.length
  | [], job, i => by simp [batch_loop]
  | f :: fs, job, i => by
      rw [batch_loop, batch_loop_processed mapping oracle fs _ (i + 1)]
      cases hf : oracle f with
      | ok v =>
          cases fs with
          | nil => simp [process_file, hf]
          | cons g gs => simp [process_file, hf]; omega
      | error e =>
          cases fs with
          | nil => simp [process_file, hf]
          | cons g gs => simp [process_file, hf]; omega

/-- The loop never touches `total_files`. -/
theorem batch_loop_total (mapping : List (String × String))
    (oracle : FileOracle) :
    ∀ (fs : List String) (job : JobState) (i : Nat),
    (batch_loop mapping oracle job fs i).total_files = job.total_files
  | [], job, i => by simp [batch_loop]
  | f :: fs, job, i => by
      rw [batch_loop, batch_loop_total mapping oracle fs _ (i + 1)]
      cases hf : oracle f with
      | ok v => simp [process_file, hf]
      | error e => simp [process_file, hf]

/-- C2: for a fresh job over `filenames`, at every point of the per-file loop
(the state after the first `k` files) and in the final state of
`_batch_analysis_task` (whether the frame step failed or the loop ran):
result keys and error keys are disjoint, their union is contained in the
configured filenames, and as soon as `processed_files = total_files` every
configured filename is in the union — each file got exactly one of a result
or an error. -/
theorem batch_results_errors_partition (mapping : List (String × String))
    (oracle : FileOracle) (frame : Except String Unit)
    (filenames : List String) (k : Nat) :
    (∀ f, f ∈ (batch_loop mapping oracle (new_job filenames.length)
          (filenames.take k) 0).results.map Prod.fst →
        f ∉ (batch_loop mapping oracle (new_job filenames.length)
          (filenames.take k) 0).errors.map Prod.fst) ∧
    (∀ f, (f ∈ (batch_loop mapping oracle (new_job filenames.length)
            (filenames.take k) 0).results.map Prod.fst ∨
          f ∈ (batch_loop mapping oracle (new_job filenames.length)
            (filenames.take k) 0).errors.map Prod.fst) → f ∈ filenames) ∧
    ((batch_loop mapping oracle (new_job filenames.length)
          (filenames.take k) 0).processed_files =
        (batch_loop mapping oracle (new_job filenames.length)
          (filenames.take k) 0).total_files →
      ∀ f ∈ filenames,
        f ∈ (batch_loop mapping oracle (new_job filenames.length)
          (filenames.take k) 0).results.map Prod.fst ∨
        f ∈ (batch_loop mapping oracle (new_job filenames.length)
          (filenames.take k) 0).errors.map Prod.fst) ∧
    (∀ f, f ∈ (batch_analysis_task mapping oracle frame filenames
          (new_job filenames.length)).results.map Prod.fst →
        f ∉ (batch_analysis_task mapping oracle frame filenames
          (new_job filenames.length)).errors.map Prod.fst) ∧
    (∀ f, (f ∈ (batch_analysis_task mapping oracle frame filenames
            (new_job filenames.length)).results.map Prod.fst ∨
          f ∈ (batch_analysis_task mapping oracle frame filenames
            (new_job filenames.length)).errors.map Prod.fst) → f ∈ filenames) ∧
    ((batch_analysis_task mapping oracle frame filenames
          (new_job filenames.length)).processed_files =
        (batch_analysis_task mapping oracle frame filenames
          (new_job filenames.length)).total_files →
      ∀ f ∈ filenames,
        f ∈ (batch_analysis_task mapping oracle frame filenames
          (new_job filenames.length)).results.map Prod.fst ∨
        f ∈ (batch_analysis_task mapping oracle frame filenames
          (new_job filenames.length)).errors.map Prod.fst) := by
  have hdisj : ∀ (fs : List String) (f : String),
      f ∈ (batch_loop mapping oracle (new_job filenames.length) fs 0).results.map
        Prod.fst →
      f ∉ (batch_loop mapping oracle (new_job filenames.length) fs 0).errors.map
        Prod.fst := by
    intro fs f h1 h2
    rw [batch_loop_results] at h1
    rw [batch_loop_errors] at h2
    simp [new_job, List.mem_filter] at h1 h2
    exact absurd h1.2 (by simp [h2.2])
  have hsub : ∀ (fs : List String) (f : String), fs ⊆ filenames →
      (f ∈ (batch_loop mapping oracle (new_job filenames.length) fs 0).results.map
          Prod.fst ∨
        f ∈ (batch_loop mapping oracle (new_job filenames.length) fs 0).errors.map
          Prod.fst) → f ∈ filenames := by
    intro fs f hss h
    rcases h with h | h
    · rw [batch_loop_results] at h
      simp [new_job, List.mem_filter] at h
      exact hss h.1
    · rw [batch_loop_errors] at h
      simp [new_job, List.mem_filter] at h
      exact hss h.1
  have hfull : ∀ (fs : List String) (f : String), fs = filenames →
      f ∈ filenames →
      f ∈ (batch_loop mapping oracle (new_job filenames.length) fs 0).results.map
        Prod.fst ∨
      f ∈ (batch_loop mapping oracle (new_job filenames.length) fs 0).errors.map
        Prod.fst := by
    intro fs f hfs hf
    subst hfs
    rw [batch_loop_results, batch_loop_errors]
    by_cases hok : oracleOk oracle f
    · left
      simp [new_job, List.mem_filter]
      exact ⟨hf, hok⟩
    · right
      simp [new_job, List.mem_filter]
      exact ⟨hf, by simp [hok]⟩
  refine ⟨hdisj _, fun f h => hsub _ f (List.take_subset k filenames) h, ?_, ?_, ?_, ?_⟩
  · intro hyp f hf
    rw [batch_loop_processed, batch_loop_total] at hyp
    by_cases hemp : (filenames.take k).isEmpty
    · rw [if_pos hemp] at hyp
      simp [new_job] at hyp
      rw [List.length_eq_zero.mp hyp.symm] at hf
      cases hf
    · rw [if_neg hemp] at hyp
      simp [new_job] at hyp
      exact hfull _ f (List.take_of_length_le hyp) hf
  · intro f h1 h2
    unfold batch_analysis_task at h1 h2
    cases frame with
    | error e => simp [new_job] at h1
    | ok u =>
        dsimp only at h1 h2
        exact hdisj filenames f h1 h2
  · intro f h
    unfold batch_analysis_task at h
    cases frame with
    | error e => simp [new_job] at h
    | ok u =>
        dsimp only at h
        exact hsub filenames f (by exact fun a ha => ha) h
  · intro hyp f hf
    unfold batch_analysis_task at hyp ⊢
    cases frame with
    | error e =>
        simp [new_job] at hyp
        rw [List.length_eq_zero.mp hyp.symm] at hf
        cases hf
    | ok u =>
        dsimp only at hyp ⊢
        exact hfull filenames f rfl hf

/-- C2 witness: in a 3-file job where only `f2` fails, `f1` got a result and
therefore no error entry. -/
theorem batch_results_errors_partition_witness :
    "f1" ∉ (batch_loop [] c2Oracle (new_job (["f1", "f2", "f3"]).length)
        ((["f1", "f2", "f3"]).take 3) 0).errors.map Prod.fst :=
  (batch_results_errors_partition [] c2Oracle (Except.ok ())
      ["f1", "f2", "f3"] 3).1 "f1" (by decide)

/-! ## C5 — start_batch_analysis guard and status monotonicity -/

/-- The terminal statuses `batch_analysis_task` can leave a job in. -/
theorem batch_analysis_task_status (mapping : List (String × String))
    (oracle : FileOracle) (frame : Except String Unit)
    (filenames : List String) (job : JobState) :
    (batch_analysis_task mapping oracle frame filenames job).status = "failed" ∨
    (batch_analysis_task mapping oracle frame filenames job).status =
      "completed" := by
  unfold batch_analysis_task
  cases frame with
  | error e => left; rfl
  | ok u => right; rfl

/-- C5: (1) an unknown job id raises; (2) a status other than
`pending_upload` — in particular a second `start` on the same job — raises,
and no store is produced (the job is untouched); (3) on `pending_upload`,
`start` returns the store where only the job's status (now `processing`) and
message changed — `results`, `errors`, `processed_files`, `total_files` are
untouched, so no per-file work happened before returning — plus the id of the
scheduled background task; (4) calling `start` again on the returned store
raises; (5) along the status steps a stored job undergoes
(`start`, then the launched task finishing in `completed`/`failed`), the
status rank never decreases: transitions are monotonic. -/
theorem start_batch_analysis_spec :
    (∀ (store : JobStore) (job_id : String), store.lookup job_id = none →
        start_batch_analysis store job_id =
          .error "해당 작업을 찾을 수 없습니다.") ∧
    (∀ (store : JobStore) (job_id : String) (job : JobState),
        store.lookup job_id = some job → job.status ≠ "pending_upload" →
        start_batch_analysis store job_id =
          .error "이미 처리 중이거나 완료된 작업입니다.") ∧
    (∀ (store : JobStore) (job_id : String) (job : JobState),
        store.lookup job_id = some job → job.status = "pending_upload" →
        start_batch_analysis store job_id =
          .ok (update_job store job_id
                { job with
                    status := "processing",
                    message := "배치 분석 작업 진행 중..." }, job_id) ∧
        (update_job store job_id
            { job with
                status := "processing",
                message := "배치 분석 작업 진행 중..." }).lookup job_id =
          some { job with
                    status := "processing",
                    message := "배치 분석 작업 진행 중..." }) ∧
    (∀ (store store' : JobStore) (job_id s : String) (job : JobState),
        store.lookup job_id = some job → job.status = "pending_upload" →
        start_batch_analysis store job_id = .ok (store', s) →
        start_batch_analysis store' job_id =
          .error "이미 처리 중이거나 완료된 작업입니다.") ∧
    (∀ (j j' : JobState), JobStatusStep j j' →
        statusRank j.status ≤ statusRank j'.status) := by
  have herr : ∀ (store : JobStore) (job_id : String) (job : JobState),
      store.lookup job_id = some job → job.status ≠ "pending_upload" →
      start_batch_analysis store job_id =
        .error "이미 처리 중이거나 완료된 작업입니다." := by
    intro store job_id job hlk hst
    unfold start_batch_analysis
    rw [hlk]
    simp [hst]
  have hok : ∀ (store : JobStore) (job_id : String) (job : JobState),
      store.lookup job_id = some job → job.status = "pending_upload" →
      start_batch_analysis store job_id =
        .ok (update_job store job_id
              { job with
                  status := "processing",
                  message := "배치 분석 작업 진행 중..." }, job_id) := by
    intro store job_id job hlk hst
    unfold start_batch_analysis
    rw [hlk]
    simp [hst]
  have hupd : ∀ (store : JobStore) (job_id : String) (job j : JobState),
      store.lookup job_id = some job →
      (update_job store job_id j).lookup job_id = some j := by
    intro store job_id job j hlk
    exact lookup_map_overwrite store job_id j job hlk
  refine ⟨?_, herr, ?_, ?_, ?_⟩
  · intro store job_id hlk
    unfold start_batch_analysis
    rw [hlk]
  · intro store job_id job hlk hst
    exact ⟨hok store job_id job hlk hst, hupd store job_id job _ hlk⟩
  · intro store store' job_id s job hlk hst hstart
    rw [hok store job_id job hlk hst] at hstart
    have hstore : store' = update_job store job_id
        { job with
            status := "processing", message := "배치 분석 작업 진행 중..." } := by
      injection hstart with h1
      exact (congrArg Prod.fst h1).symm
    subst hstore
    exact herr _ job_id _ (hupd store job_id job _ hlk) (by simp)
  · intro j j' hstep
    cases hstep with
    | start =>
        rename_i store job_id store' hstart hlk hlk2
        by_cases hst : j.status = "pending_upload"
        · rw [hok store job_id j hlk hst] at hstart
          have hstore : store' = update_job store job_id
              { j with
                  status := "processing",
                  message := "배치 분석 작업 진행 중..." } := by
            injection hstart with h1
            exact (congrArg Prod.fst h1).symm
          subst hstore
          rw [hupd store job_id j _ hlk] at hlk2
          injection hlk2 with h2
          rw [← h2, hst]
          simp [statusRank]
        · rw [herr store job_id j hlk hst] at hstart
          cases hstart
    | finish =>
        rename_i mapping oracle frame filenames hst
        rcases batch_analysis_task_status mapping oracle frame filenames j
          with h | h <;>
          rw [h, hst] <;> simp [statusRank]

/-- C5 witness: a second `start` on an already-processing job raises the
already-running error. -/
theorem start_batch_analysis_spec_witness :
    start_batch_analysis
      [("job-1", { new_job 3 with status := "processing" })] "job-1" =
      .error "이미 처리 중이거나 완료된 작업입니다." :=
  start_batch_analysis_spec.2.1
    [("job-1", { new_job 3 with status := "processing" })] "job-1"
    { new_job 3 with status := "processing" } (by decide) (by decide)

/-! ## C9 — the pre-emptive rate-limit wait -/

/-- C9 (counterexample): with `rpm = 2` (90% threshold 1.8) and recent
requests at `t = 0` and `t = 30`, a call at `now = 50` sleeps once for
`60 − (50 − 0) + 1 = 11` seconds (not the 10 s remaining until the oldest
request leaves the window) and then returns at `t = 61` — where the
trailing-window count (including the timestamp just recorded) is 2, still at
or above the 90% threshold: the function neither re-checks nor blocks until
the count is below it. -/
theorem wait_for_rate_limit_no_recheck :
    (wait_for_rate_limit c9State "gpt-4o" 0 50).slept = some 11 ∧
    (wait_for_rate_limit c9State "gpt-4o" 0 50).slept ≠ some 10 ∧
    ((((wait_for_rate_limit c9State "gpt-4o" 0
          50).state.last_request_times.lookup "gpt-4o").getD []).filter
        (fun t => (61 : ℚ) - t < 60)).length = 2 ∧
    ¬ ((2 : ℚ) < (9 : ℚ) / 10 * 2) := by
  refine ⟨?_, ?_, ?_, by norm_num⟩ <;>
    norm_num [wait_for_rate_limit, pruned_times, c9State, List.lookup,
      List.filter, List.min?]

/-- C9 (amended): for a configured model, `wait_for_rate_limit` sleeps at
most once: no sleep when the pruned trailing-window count is below 90% of the
`rpm` budget; otherwise a single sleep of `60 − (now − oldest) + 1` seconds
(when positive) after which it proceeds without re-checking. An estimated
token count above 90% of the `tpm` budget only raises the warning flag: the
sleep decision and the state update are independent of the estimate. The
pruned window plus the entry time `now` is what gets recorded. -/
theorem wait_for_rate_limit_spec (st : RLMState) (m : String) (est : Nat)
    (now : ℚ) (tl : Nat × Nat) (h : st.token_limits.lookup m = some tl) :
    (((pruned_times st m now).length : ℚ) < (9 : ℚ) / 10 * (tl.2 : ℚ) →
        (wait_for_rate_limit st m est now).slept = none) ∧
    (∀ oldest : ℚ,
        ((pruned_times st m now).length : ℚ) ≥ (9 : ℚ) / 10 * (tl.2 : ℚ) →
        (pruned_times st m now).min? = some oldest →
        (wait_for_rate_limit st m est now).slept =
          (if 0 < 60 - (now - oldest) + 1 then some (60 - (now - oldest) + 1)
           else none)) ∧
    ((wait_for_rate_limit st m est now).warned =
        decide ((est : ℚ) > (9 : ℚ) / 10 * (tl.1 : ℚ))) ∧
    (∀ est2 : Nat,
        (wait_for_rate_limit st m est now).slept =
          (wait_for_rate_limit st m est2 now).slept ∧
        (wait_for_rate_limit st m est now).state =
          (wait_for_rate_limit st m est2 now).state) ∧
    (∀ ts : List ℚ, st.last_request_times.lookup m = some ts →
        (wait_for_rate_limit st m est
            now).state.last_request_times.lookup m =
          some (ts.filter (fun t => now - t < 60) ++ [now])) := by
  refine ⟨?_, ?_, ?_, ?_, ?_⟩
  · intro hlt
    unfold wait_for_rate_limit
    rw [h]
    simp only [not_lt.mpr, ge_iff_le]
    rw [if_neg (by exact not_le.mpr hlt)]
  · intro oldest hge hmin
    unfold wait_for_rate_limit
    rw [h]
    simp only
    rw [if_pos (by exact hge), hmin]
  · unfold wait_for_rate_limit
    rw [h]
  · intro est2
    unfold wait_for_rate_limit
    rw [h]
    exact ⟨rfl, rfl⟩
  · intro ts hts
    unfold wait_for_rate_limit
    rw [h]
    simp only
    have := lookup_map_overwrite st.last_request_times m
      (pruned_times st m now ++ [now]) ts hts
    rw [this]
    unfold pruned_times
    rw [hts]
    rfl

/-- C9 witness: the token-budget check of a configured model only computes
the warning flag. -/
theorem wait_for_rate_limit_spec_witness :
    (wait_for_rate_limit c9State "gpt-4o" 0 50).warned =
      decide ((0 : ℚ) > (9 : ℚ) / 10 * ((30000 : Nat) : ℚ)) :=
  (wait_for_rate_limit_spec c9State "gpt-4o" 0 50 (30000, 2) (by decide)).2.2.1

end AIServer
